import Mathlib

/-!
Verification of `src/wakeup/wakeup.py`, a script that periodically simulates
keystrokes to keep Microsoft Teams' presence status active and exits when the
user presses the 'q' key.

The script is embedded shallowly:
* `Effect` is the inventory of external calls the script makes (pyautogui
  key/mouse simulation, time.sleep, win32gui.FindWindow, print,
  keyboard.on_press_key).
* Each Python function becomes a Lean function from the global state
  (the single boolean `q_pressed`) to a new state plus the list of effects
  it performs, in order.
* The asynchronous delivery of key events to the registered callback is
  modelled by a schedule `sched : Nat → List String` giving the events the
  keyboard library delivers before the i-th check of the while-loop guard,
  and the clock by `times : Nat → String` giving the formatted time of the
  i-th iteration.
* The unbounded while-loop is run with fuel; `none` means the fuel ran out
  before the loop exited.
* For error-propagation properties the same code is embedded a second time
  in the `Except` monad (`set_status_availableE`, `check_q_pressE`, `mainE`),
  with every external call drawn from an environment `Env` that may fail,
  mirroring the fact that the Python source contains no try/except.
-/

namespace Wakeup

/-- An external call performed by the script, in the order the source makes
them: pyautogui.press / typewrite / moveTo / click, time.sleep,
win32gui.FindWindow, print, keyboard.on_press_key. -/
inductive Effect where
  | press (key : String)
  | typewrite (text : String)
  | sleep (seconds : Nat)
  | findWindow (cls : Option String) (title : String)
  | moveTo (x y : Int)
  | click
  | print (text : String)
  | onPressKey (key : String)
  deriving DecidableEq, Repr, BEq

/-- The process-wide mutable state of the script: the single module-level
boolean `q_pressed`. -/
structure State where
  q_pressed : Bool
  deriving DecidableEq, Repr

/-- Module-level initialisation `q_pressed = False`. -/
def initState : State :=
  { q_pressed := false }

/-- Embedding of `set_status_available` (wakeup.py lines 10-33).  Only the
live statements are translated: `pyautogui.press('win')`, `time.sleep(1)`,
`pyautogui.typewrite('Teams')`, `time.sleep(1)`, `pyautogui.press('enter')`,
`time.sleep(2)`, `win32gui.FindWindow(None, "Microsoft Teams")`.  The block
guarded by `if teams_window:` (SetForegroundWindow, moveTo, click, the
down/enter status selection and the confirming click) is commented out in
the source, so it contributes no effects.  The function mentions no global,
so the state passes through unchanged, and Python returns `None`. -/
def set_status_available (s : State) : State × List Effect :=
  (s,
    [ Effect.press "win",
      Effect.sleep 1,
      Effect.typewrite "Teams",
      Effect.sleep 1,
      Effect.press "enter",
      Effect.sleep 2,
      Effect.findWindow none "Microsoft Teams" ])

/-- Embedding of `check_q_press(event)` (wakeup.py lines 37-40): sets the
global `q_pressed` to True, then prints the event followed by the exit
message.  The event is modelled by its printed text. -/
def check_q_press (event : String) (s : State) : State × List Effect :=
  let s1 : State := { s with q_pressed := true }
  (s1, [Effect.print (event ++ " q pressed. Exiting, wait for a while...")])

/-- Deliver a batch of key events, in order, to the callback registered by
`keyboard.on_press_key('q', check_q_press)`. -/
def deliver (events : List String) (s : State) : State × List Effect :=
  match events with
  | [] => (s, [])
  | ev :: rest =>
      let r1 := check_q_press ev s
      let r2 := deliver rest r1.1
      (r2.1, r1.2 ++ r2.2)

/-- One iteration of the body of main's while-loop (wakeup.py lines 48-52):
print the current time and the activation message, call
`set_status_available`, then `time.sleep(300)`. -/
def loopBody (now : String) (s : State) : State × List Effect :=
  let r1 := set_status_available s
  (r1.1, Effect.print (now ++ " - activating status.") :: r1.2 ++ [Effect.sleep 300])

/-- The while-loop of `main` (wakeup.py lines 48-54), run with fuel.  Before
the i-th evaluation of the guard `not q_pressed`, the events `sched i` are
delivered asynchronously to the callback.  When the guard fails the loop
exits and main prints 'Exiting...'.  `none` means the fuel was exhausted
before the loop exited. -/
def runLoop (times : Nat → String) (sched : Nat → List String) :
    Nat → Nat → State → Option (State × List Effect)
  | 0, _, _ => none
  | fuel + 1, i, s =>
      let rEv := deliver (sched i) s
      if rEv.1.q_pressed then
        some (rEv.1, rEv.2 ++ [Effect.print "Exiting..."])
      else
        let rBody := loopBody (times i) rEv.1
        match runLoop times sched fuel (i + 1) rBody.1 with
        | none => none
        | some (s3, tRest) => some (s3, rEv.2 ++ rBody.2 ++ tRest)

/-- Embedding of `main` (wakeup.py lines 42-54): register the 'q' keypress
watcher with `keyboard.on_press_key`, then enter the polling loop starting
from the module-level state. -/
def main (times : Nat → String) (sched : Nat → List String) (fuel : Nat) :
    Option (State × List Effect) :=
  match runLoop times sched fuel 0 initState with
  | none => none
  | some (s, tr) => some (s, Effect.onPressKey "q" :: tr)

/-- Total number of seconds spent in `time.sleep` calls in a trace. -/
def sleepSeconds : List Effect → Nat
  | [] => 0
  | Effect.sleep n :: rest => n + sleepSeconds rest
  | _ :: rest => sleepSeconds rest

/-- A mouse action simulated through pyautogui (moveTo or click). -/
def Effect.isMouseAction : Effect → Bool
  | Effect.moveTo _ _ => true
  | Effect.click => true
  | _ => false

/-- Every external call the script can make is a user-interface, timing or
console call (keyboard/mouse simulation, sleeping, window lookup, printing,
key-watcher registration): the inventory contains no file and no network
operation. -/
def Effect.isUiTimingOrConsole : Effect → Bool
  | Effect.press _ => true
  | Effect.typewrite _ => true
  | Effect.sleep _ => true
  | Effect.findWindow _ _ => true
  | Effect.moveTo _ _ => true
  | Effect.click => true
  | Effect.print _ => true
  | Effect.onPressKey _ => true

/-! ### The `Except`-monad embedding, for error propagation -/

/-- The external interface of the script, each call fallible.  `findWindow`
returns a window handle. -/
structure Env (ε : Type) where
  press : String → Except ε Unit
  typewrite : String → Except ε Unit
  sleep : Nat → Except ε Unit
  findWindow : Option String → String → Except ε Int
  printLine : String → Except ε Unit
  onPressKey : String → Except ε Unit

/-- Build an environment from a table saying which calls fail, and with
which error.  A successful `findWindow` returns handle 0. -/
def envFrom {ε : Type} (fails : Effect → Option ε) : Env ε where
  press := fun k =>
    match fails (Effect.press k) with
    | some e => Except.error e
    | none => Except.ok ()
  typewrite := fun t =>
    match fails (Effect.typewrite t) with
    | some e => Except.error e
    | none => Except.ok ()
  sleep := fun n =>
    match fails (Effect.sleep n) with
    | some e => Except.error e
    | none => Except.ok ()
  findWindow := fun c t =>
    match fails (Effect.findWindow c t) with
    | some e => Except.error e
    | none => Except.ok 0
  printLine := fun t =>
    match fails (Effect.print t) with
    | some e => Except.error e
    | none => Except.ok ()
  onPressKey := fun k =>
    match fails (Effect.onPressKey k) with
    | some e => Except.error e
    | none => Except.ok ()

/-- Fail exactly on one designated call. -/
def failOnly {ε : Type} (bad : Effect) (err : ε) : Effect → Option ε :=
  fun e => if e = bad then some err else none

/-- Fail on every print call. -/
def failAnyPrint {ε : Type} (err : ε) : Effect → Option ε :=
  fun e =>
    match e with
    | Effect.print _ => some err
    | _ => none

/-- `set_status_available` in the `Except` monad: the same live statements,
with no try/except around any of them. -/
def set_status_availableE {ε : Type} (env : Env ε) : Except ε Unit := do
  env.press "win"
  env.sleep 1
  env.typewrite "Teams"
  env.sleep 1
  env.press "enter"
  env.sleep 2
  let _teams_window ← env.findWindow none "Microsoft Teams"
  pure ()

/-- `check_q_press` in the `Except` monad: set the flag, then print; the
print is not guarded by any handler. -/
def check_q_pressE {ε : Type} (env : Env ε) (event : String) (s : State) :
    Except ε State := do
  let s1 : State := { s with q_pressed := true }
  env.printLine (event ++ " q pressed. Exiting, wait for a while...")
  pure s1

/-- Event delivery in the `Except` monad. -/
def deliverE {ε : Type} (env : Env ε) : List String → State → Except ε State
  | [], s => pure s
  | ev :: rest, s => do
      let s1 ← check_q_pressE env ev s
      deliverE env rest s1

/-- The while-loop of `main` in the `Except` monad. -/
def runLoopE {ε : Type} (env : Env ε) (times : Nat → String)
    (sched : Nat → List String) : Nat → Nat → State → Except ε (Option State)
  | 0, _, _ => pure none
  | fuel + 1, i, s => do
      let s1 ← deliverE env (sched i) s
      if s1.q_pressed then do
        env.printLine "Exiting..."
        pure (some s1)
      else do
        env.printLine (times i ++ " - activating status.")
        set_status_availableE env
        env.sleep 300
        runLoopE env times sched fuel (i + 1) s1

/-- `main` in the `Except` monad: register the watcher, then loop.  No call
is wrapped in a handler and nothing is retried. -/
def mainE {ε : Type} (env : Env ε) (times : Nat → String)
    (sched : Nat → List String) (fuel : Nat) : Except ε (Option State) := do
  env.onPressKey "q"
  runLoopE env times sched fuel 0 initState

/-- A concrete schedule for a complete run: no event at the first guard
check, a 'q' key event delivered before the second. -/
def exampleSched : Nat → List String :=
  fun i => if i == 0 then [] else ["KeyboardEvent"]

/-- Every external call, in order, of the complete run of `main` under
`exampleSched` with the clock stuck at "12:00" and fuel 2: registration,
one full loop-body iteration, the callback's print, and the exit print. -/
def mainRunCalls : List Effect :=
  [ Effect.onPressKey "q",
    Effect.print ("12:00" ++ " - activating status."),
    Effect.press "win",
    Effect.sleep 1,
    Effect.typewrite "Teams",
    Effect.sleep 1,
    Effect.press "enter",
    Effect.sleep 2,
    Effect.findWindow none "Microsoft Teams",
    Effect.sleep 300,
    Effect.print ("KeyboardEvent" ++ " q pressed. Exiting, wait for a while..."),
    Effect.print "Exiting..." ]

/-! ### Shared lemmas -/

/-- The callback always leaves the flag set, whatever the event. -/
theorem check_q_press_state (ev : String) (s : State) :
    (check_q_press ev s).1 = State.mk true := rfl

/-- Delivering events either leaves the state untouched (no event) or sets
the flag. -/
theorem deliver_state (events : List String) (s : State) :
    (deliver events s).1 = if events.isEmpty then s else State.mk true := by
  induction events generalizing s with
  | nil => rfl
  | cons ev rest ih =>
      show (deliver rest (State.mk true)).1 = State.mk true
      rw [ih]
      split <;> rfl

/-- Once set, delivery keeps the flag set. -/
theorem deliver_state_true (events : List String) (s : State)
    (h : s.q_pressed = true) : ((deliver events s).1).q_pressed = true := by
  rw [deliver_state]
  split
  · exact h
  · rfl

theorem runLoop_zero (times : Nat → String) (sched : Nat → List String)
    (i : Nat) (s : State) : runLoop times sched 0 i s = none := rfl

theorem runLoop_succ (times : Nat → String) (sched : Nat → List String)
    (fuel i : Nat) (s : State) :
    runLoop times sched (fuel + 1) i s =
      if ((deliver (sched i) s).1).q_pressed then
        some ((deliver (sched i) s).1,
          (deliver (sched i) s).2 ++ [Effect.print "Exiting..."])
      else
        match runLoop times sched fuel (i + 1)
            ((loopBody (times i) ((deliver (sched i) s).1)).1) with
        | none => none
        | some (s3, tRest) =>
            some (s3, (deliver (sched i) s).2 ++
              (loopBody (times i) ((deliver (sched i) s).1)).2 ++ tRest) := rfl

/-- If the loop returns, the flag is set in the final state and the trace
ends with the 'Exiting...' print. -/
theorem runLoop_exit_shape (times : Nat → String) (sched : Nat → List String) :
    ∀ (fuel i : Nat) (s : State) (r : State × List Effect),
      runLoop times sched fuel i s = some r →
      r.1.q_pressed = true ∧ ∃ pre, r.2 = pre ++ [Effect.print "Exiting..."] := by
  intro fuel
  induction fuel with
  | zero =>
      intro i s r h
      rw [runLoop_zero] at h
      exact absurd h (by simp)
  | succ fuel ih =>
      intro i s r h
      rw [runLoop_succ] at h
      by_cases hq : ((deliver (sched i) s).1).q_pressed = true
      · rw [if_pos hq] at h
        injection h with h'
        subst h'
        exact ⟨hq, (deliver (sched i) s).2, rfl⟩
      · rw [if_neg hq] at h
        cases hrec : runLoop times sched fuel (i + 1)
            ((loopBody (times i) ((deliver (sched i) s).1)).1) with
        | none =>
            rw [hrec] at h
            exact absurd h (by simp)
        | some r3 =>
            obtain ⟨s3, tRest⟩ := r3
            rw [hrec] at h
            injection h with h'
            subst h'
            obtain ⟨hflag, pre, hpre⟩ := ih (i + 1)
              ((loopBody (times i) ((deliver (sched i) s).1)).1) (s3, tRest) hrec
            refine ⟨hflag,
              (deliver (sched i) s).2 ++
                (loopBody (times i) ((deliver (sched i) s).1)).2 ++ pre, ?_⟩
            simp only at hpre
            rw [hpre]
            simp [List.append_assoc]

/-! ### C1 -/

/-- C1: the loop body runs only while `q_pressed` is false.  Whenever `main`
terminates, the final state has `q_pressed = true` and the last thing printed
is 'Exiting...'; and as soon as the flag is true at a guard check, the loop
performs no further iteration: it returns immediately with only the callback
prints and the 'Exiting...' print, no loop-body effect. -/
theorem C1_exit_on_designated_key :
    (∀ (times : Nat → String) (sched : Nat → List String) (fuel : Nat)
        (r : State × List Effect), main times sched fuel = some r →
        r.1.q_pressed = true ∧ r.2.getLast? = some (Effect.print "Exiting...")) ∧
    (∀ (times : Nat → String) (sched : Nat → List String) (fuel i : Nat)
        (s : State), s.q_pressed = true →
        runLoop times sched (fuel + 1) i s =
          some ((deliver (sched i) s).1,
            (deliver (sched i) s).2 ++ [Effect.print "Exiting..."])) := by
  constructor
  · intro times sched fuel r h
    unfold main at h
    cases hrl : runLoop times sched fuel 0 initState with
    | none => rw [hrl] at h; exact absurd h (by simp)
    | some r0 =>
        obtain ⟨s0, tr0⟩ := r0
        rw [hrl] at h
        injection h with h'
        subst h'
        obtain ⟨hflag, pre, hpre⟩ :=
          runLoop_exit_shape times sched fuel 0 initState (s0, tr0) hrl
        simp only at hpre
        refine ⟨hflag, ?_⟩
        show (Effect.onPressKey "q" :: tr0).getLast? = some (Effect.print "Exiting...")
        rw [hpre, ← List.cons_append]
        exact List.getLast?_concat _
  · intro times sched fuel i s h
    rw [runLoop_succ, if_pos (deliver_state_true (sched i) s h)]

/-- Witness for C1 at a concrete schedule that presses 'q' immediately. -/
theorem C1_exit_on_designated_key_witness :
    ((State.mk true).q_pressed = true ∧
      ([Effect.onPressKey "q",
        Effect.print "KeyboardEvent q pressed. Exiting, wait for a while...",
        Effect.print "Exiting..."] : List Effect).getLast? =
        some (Effect.print "Exiting...")) ∧
    runLoop (fun _ => "12:00") (fun _ => ["KeyboardEvent"]) 1 0 (State.mk true) =
      some ((deliver ["KeyboardEvent"] (State.mk true)).1,
        (deliver ["KeyboardEvent"] (State.mk true)).2 ++
          [Effect.print "Exiting..."]) :=
  ⟨C1_exit_on_designated_key.1 (fun _ => "12:00") (fun _ => ["KeyboardEvent"]) 1
      (State.mk true,
        [Effect.onPressKey "q",
         Effect.print "KeyboardEvent q pressed. Exiting, wait for a while...",
         Effect.print "Exiting..."]) rfl,
   C1_exit_on_designated_key.2 (fun _ => "12:00") (fun _ => ["KeyboardEvent"]) 0 0
      (State.mk true) rfl⟩

/-! ### C2 -/

/-- C2: `set_status_available` simulates exactly the keystrokes that open and
focus the application (press 'win', type 'Teams', press 'enter', with sleeps,
then a window lookup) and performs no mouse move, no click, and no 'down'
status-selection keystroke: the status-changing interaction is commented out,
so no status-changing effect occurs. -/
theorem C2_status_routine_keystrokes_only (s : State) :
    (set_status_available s).2 =
      [ Effect.press "win", Effect.sleep 1, Effect.typewrite "Teams",
        Effect.sleep 1, Effect.press "enter", Effect.sleep 2,
        Effect.findWindow none "Microsoft Teams" ] ∧
    ((set_status_available s).2.all fun e =>
      !e.isMouseAction && !(e == Effect.press "down") && !(e == Effect.click)) =
      true :=
  ⟨rfl, rfl⟩

/-! ### C3 -/

/-- C3: `main` first registers the 'q' keypress watcher and only then enters
the loop (its trace is the registration effect followed by the loop trace);
and each iteration with the flag unset and no event delivered performs, in
order, the current-time print, the effects of `set_status_available`, and the
300-second sleep, before the rest of the run. -/
theorem C3_main_step_order :
    (∀ (times : Nat → String) (sched : Nat → List String) (fuel : Nat),
        main times sched fuel =
          Option.map (fun r => (r.1, Effect.onPressKey "q" :: r.2))
            (runLoop times sched fuel 0 initState)) ∧
    (∀ (times : Nat → String) (sched : Nat → List String) (fuel i : Nat)
        (s : State), s.q_pressed = false → sched i = [] →
        runLoop times sched (fuel + 1) i s =
          Option.map (fun r => (r.1,
              (Effect.print (times i ++ " - activating status.") ::
                (set_status_available s).2 ++ [Effect.sleep 300]) ++ r.2))
            (runLoop times sched fuel (i + 1) s)) := by
  constructor
  · intro times sched fuel
    unfold main
    cases runLoop times sched fuel 0 initState with
    | none => rfl
    | some r0 => rfl
  · intro times sched fuel i s hq hsched
    rw [runLoop_succ, hsched]
    show (if s.q_pressed then _ else _) = _
    rw [if_neg (by rw [hq]; exact Bool.false_ne_true)]
    cases hr : runLoop times sched fuel (i + 1) s with
    | none =>
        have hr2 : runLoop times sched fuel (i + 1)
            ((loopBody (times i) ((deliver [] s).1)).1) = none := hr
        rw [hr2]
        rfl
    | some r3 =>
        obtain ⟨s3, tRest⟩ := r3
        have hr2 : runLoop times sched fuel (i + 1)
            ((loopBody (times i) ((deliver [] s).1)).1) = some (s3, tRest) := hr
        rw [hr2]
        rfl

/-- Witness for C3 at a concrete clock, empty schedule and small fuel. -/
theorem C3_main_step_order_witness :
    (main (fun _ => "12:00") (fun _ => []) 0 =
      Option.map (fun r => (r.1, Effect.onPressKey "q" :: r.2))
        (runLoop (fun _ => "12:00") (fun _ => []) 0 0 initState)) ∧
    (runLoop (fun _ => "12:00") (fun _ => []) 1 0 initState =
      Option.map (fun r => (r.1,
          (Effect.print ("12:00" ++ " - activating status.") ::
            (set_status_available initState).2 ++ [Effect.sleep 300]) ++ r.2))
        (runLoop (fun _ => "12:00") (fun _ => []) 0 1 initState)) :=
  ⟨C3_main_step_order.1 (fun _ => "12:00") (fun _ => []) 0,
   C3_main_step_order.2 (fun _ => "12:00") (fun _ => []) 0 0 initState rfl rfl⟩

/-! ### C4 -/

/-- C4 as stated is false: in a concrete run of the loop that executes the
body once and exits at the second guard check, the segment of the trace
between the first check and the second is the loop-body trace, and that
segment sleeps 304 seconds, not exactly the fixed 300: `set_status_available`
itself sleeps 1 + 1 + 2 seconds before the 300-second delay. -/
theorem C4_counterexample :
    runLoop (fun _ => "12:00") exampleSched 2 0 initState =
      some (State.mk true,
        (loopBody "12:00" initState).2 ++
          [Effect.print
              ("KeyboardEvent" ++ " q pressed. Exiting, wait for a while..."),
            Effect.print "Exiting..."]) ∧
    sleepSeconds ((loopBody "12:00" initState).2) = 304 ∧
    (304 : Nat) ≠ 300 :=
  ⟨rfl, rfl, by decide⟩

/-- C4 amended: in every iteration of every run (flag unset at the check, no
event delivered at it), the trace inserted between that check of `q_pressed`
and the next is the loop-body trace, and that trace sleeps 304 seconds — the
fixed 300-second sleep plus the 4 seconds (1+1+2) slept inside
`set_status_available` — so the loop polls the flag every 304 seconds of
sleeping, not every 300. -/
theorem C4_amended_poll_interval (times : Nat → String)
    (sched : Nat → List String) (fuel i : Nat) (s : State)
    (hq : s.q_pressed = false) (hsched : sched i = []) :
    runLoop times sched (fuel + 1) i s =
      Option.map (fun r => (r.1, (loopBody (times i) s).2 ++ r.2))
        (runLoop times sched fuel (i + 1) s) ∧
    sleepSeconds ((loopBody (times i) s).2) = 304 ∧
    sleepSeconds ((set_status_available s).2) = 4 ∧
    sleepSeconds ((loopBody (times i) s).2) =
      sleepSeconds ((set_status_available s).2) + 300 := by
  refine ⟨?_, rfl, rfl, rfl⟩
  rw [runLoop_succ, hsched]
  show (if s.q_pressed then _ else _) = _
  rw [if_neg (by rw [hq]; exact Bool.false_ne_true)]
  cases hr : runLoop times sched fuel (i + 1) s with
  | none =>
      have hr2 : runLoop times sched fuel (i + 1)
          ((loopBody (times i) ((deliver [] s).1)).1) = none := hr
      rw [hr2]
      rfl
  | some r3 =>
      obtain ⟨s3, tRest⟩ := r3
      have hr2 : runLoop times sched fuel (i + 1)
          ((loopBody (times i) ((deliver [] s).1)).1) = some (s3, tRest) := hr
      rw [hr2]
      rfl

/-- Witness for the amended C4 at a concrete iteration. -/
theorem C4_amended_poll_interval_witness :
    runLoop (fun _ => "12:00") (fun _ => []) 1 0 initState =
      Option.map (fun r => (r.1, (loopBody "12:00" initState).2 ++ r.2))
        (runLoop (fun _ => "12:00") (fun _ => []) 0 1 initState) ∧
    sleepSeconds ((loopBody "12:00" initState).2) = 304 ∧
    sleepSeconds ((set_status_available initState).2) = 4 ∧
    sleepSeconds ((loopBody "12:00" initState).2) =
      sleepSeconds ((set_status_available initState).2) + 300 :=
  C4_amended_poll_interval (fun _ => "12:00") (fun _ => []) 0 0 initState rfl rfl

/-! ### C5 -/

/-- C5: the program's only piece of process-wide mutable state is the single
boolean `q_pressed`: a `State` is nothing but that flag, and every external
call in the program's inventory is a UI, timing or console call — none
creates or mutates a file, network resource or other persistent entity. -/
theorem C5_single_boolean_state :
    (∀ s : State, s = State.mk s.q_pressed) ∧
    (∀ e : Effect, e.isUiTimingOrConsole = true) := by
  refine ⟨fun s => rfl, fun e => ?_⟩
  cases e <;> rfl

/-! ### C6 -/

/-- When no event is ever delivered, the loop never changes the state: the
loop only reads the flag. -/
theorem runLoop_no_events_state (times : Nat → String)
    (sched : Nat → List String) (hall : ∀ j, sched j = []) :
    ∀ (fuel i : Nat) (s : State) (r : State × List Effect),
      runLoop times sched fuel i s = some r → r.1 = s := by
  intro fuel
  induction fuel with
  | zero =>
      intro i s r h
      rw [runLoop_zero] at h
      exact absurd h (by simp)
  | succ fuel ih =>
      intro i s r h
      rw [runLoop_succ, hall i] at h
      split at h
      · injection h with h'
        subst h'
        rfl
      · cases hr : runLoop times sched fuel (i + 1)
            ((loopBody (times i) ((deliver [] s).1)).1) with
        | none =>
            rw [hr] at h
            exact absurd h (by simp)
        | some r3 =>
            obtain ⟨s3, tRest⟩ := r3
            rw [hr] at h
            injection h with h'
            subst h'
            exact ih (i + 1) ((loopBody (times i) ((deliver [] s).1)).1)
              (s3, tRest) hr

/-- C6: `check_q_press` is the only writer of the flag: every invocation of
the callback, whatever the event, sets `q_pressed` to true; delivering events
is the only way the state changes (no event: state untouched; at least one:
flag set); and in a run where the watcher never delivers an event the main
loop leaves the state exactly as it found it — it only reads the flag. -/
theorem C6_callback_sole_writer :
    (∀ (ev : String) (s : State), (check_q_press ev s).1 = State.mk true) ∧
    (∀ (events : List String) (s : State),
        (deliver events s).1 = if events.isEmpty then s else State.mk true) ∧
    (∀ (times : Nat → String) (sched : Nat → List String),
        (∀ j, sched j = []) →
        ∀ (fuel i : Nat) (s : State) (r : State × List Effect),
          runLoop times sched fuel i s = some r → r.1 = s) :=
  ⟨check_q_press_state, deliver_state, runLoop_no_events_state⟩

/-- Witness for C6: a concrete callback invocation, a concrete empty
delivery, and a concrete event-free run that exits immediately. -/
theorem C6_callback_sole_writer_witness :
    ((check_q_press "KeyboardEvent" initState).1 = State.mk true) ∧
    ((deliver [] initState).1 =
      if ([] : List String).isEmpty then initState else State.mk true) ∧
    ((State.mk true, [Effect.print "Exiting..."]).1 = State.mk true) :=
  ⟨C6_callback_sole_writer.1 "KeyboardEvent" initState,
   C6_callback_sole_writer.2.1 [] initState,
   C6_callback_sole_writer.2.2 (fun _ => "12:00") (fun _ => []) (fun _ => rfl)
     1 0 (State.mk true) (State.mk true, [Effect.print "Exiting..."]) rfl⟩

/-! ### C8 -/

/-- C8: the flag is monotone: it starts false, the callback (the only
assignment in the program) always sets it to true and never to false,
delivery keeps it true once true, and a completed run started with the flag
true ends with it true — the decision to exit is irreversible. -/
theorem C8_flag_monotone :
    initState.q_pressed = false ∧
    (∀ (ev : String) (s : State),
        ((check_q_press ev s).1).q_pressed = true) ∧
    (∀ (events : List String) (s : State), s.q_pressed = true →
        ((deliver events s).1).q_pressed = true) ∧
    (∀ (times : Nat → String) (sched : Nat → List String) (fuel i : Nat)
        (s : State) (r : State × List Effect),
        runLoop times sched fuel i s = some r → s.q_pressed = true →
        r.1.q_pressed = true) := by
  refine ⟨rfl, fun ev s => rfl, deliver_state_true, ?_⟩
  intro times sched fuel i s r h _
  exact (runLoop_exit_shape times sched fuel i s r h).1

/-- Witness for C8: the flag stays true across a concrete delivery and a
concrete completed run. -/
theorem C8_flag_monotone_witness :
    initState.q_pressed = false ∧
    ((check_q_press "KeyboardEvent" initState).1).q_pressed = true ∧
    ((deliver ["KeyboardEvent"] (State.mk true)).1).q_pressed = true ∧
    (State.mk true, [Effect.print "Exiting..."]).1.q_pressed = true :=
  ⟨C8_flag_monotone.1,
   C8_flag_monotone.2.1 "KeyboardEvent" initState,
   C8_flag_monotone.2.2.1 ["KeyboardEvent"] (State.mk true) rfl,
   C8_flag_monotone.2.2.2 (fun _ => "12:00") (fun _ => []) 1 0 (State.mk true)
     (State.mk true, [Effect.print "Exiting..."]) rfl rfl⟩

/-! ### C9 -/

/-- C9 fails as stated: the callback's behaviour is not identical for every
pair of event values, because `print(event, ...)` includes the event in its
output — two different events produce two different prints. -/
theorem C9_counterexample :
    check_q_press "a" initState ≠ check_q_press "b" initState := by
  decide

/-- C9 amended: the callback branches on nothing and its effect on the state
is identical for every event and every prior state — the flag is set to true
unconditionally, so any event delivered to the callback triggers exit; only
the text of the single print depends on the event, which it echoes. -/
theorem C9_event_filter_is_registration (ev1 ev2 : String) (s1 s2 : State) :
    (check_q_press ev1 s1).1 = (check_q_press ev2 s2).1 ∧
    ((check_q_press ev1 s1).1).q_pressed = true ∧
    (check_q_press ev1 s1).2 =
      [Effect.print (ev1 ++ " q pressed. Exiting, wait for a while...")] :=
  ⟨rfl, rfl, rfl⟩

/-! ### C10 -/

/-- C10: `set_status_available` neither reads nor writes the flag: it returns
the state unchanged and its effect trace does not depend on the state; and
the window handle obtained from FindWindow is never used — runs that only
differ in the handle FindWindow returns are indistinguishable. -/
theorem C10_status_routine_frame :
    (∀ s : State, (set_status_available s).1 = s) ∧
    (∀ s1 s2 : State,
        (set_status_available s1).2 = (set_status_available s2).2) ∧
    (∀ (ε : Type) (env : Env ε) (n1 n2 : Int),
        set_status_availableE
            { env with findWindow := fun _ _ => Except.ok n1 } =
          set_status_availableE
            { env with findWindow := fun _ _ => Except.ok n2 }) :=
  ⟨fun _ => rfl, fun _ _ => rfl, fun _ _ _ _ => rfl⟩

/-! ### C7 -/

/-- C7: no call is guarded by a handler and nothing retries: for EVERY
external call of `set_status_available` (every keystroke, sleep and the
window lookup), making exactly that call raise makes `set_status_available`
return that error; a raising print escapes `check_q_press` for every event
and state; and for EVERY external call of a complete run of `main`
(registration, the time print, every automation call of the routine, the
300-second sleep, the callback's print and the exit print — the third
conjunct certifies that `mainRunCalls` is exactly that run's call list),
making that call raise makes `main` itself return that error. -/
theorem C7_errors_propagate_unhandled :
    (∀ (ε : Type) (err : ε) (e : Effect),
        e ∈ (set_status_available initState).2 →
        set_status_availableE (envFrom (failOnly e err)) = Except.error err) ∧
    (∀ (ε : Type) (err : ε) (ev : String) (s : State),
        check_q_pressE (envFrom (failAnyPrint err)) ev s = Except.error err) ∧
    (main (fun _ => "12:00") exampleSched 2 =
      some (State.mk true, mainRunCalls)) ∧
    (∀ (ε : Type) (err : ε) (e : Effect), e ∈ mainRunCalls →
        mainE (envFrom (failOnly e err)) (fun _ => "12:00") exampleSched 2 =
          Except.error err) := by
  refine ⟨?_, ?_, rfl, ?_⟩
  · intro ε err e he
    fin_cases he <;> rfl
  · intro ε err ev s
    rfl
  · intro ε err e he
    fin_cases he <;> rfl

/-- Witness for C7: a raising typewrite escapes the routine, a raising print
escapes the callback, and a raising 'enter' keypress escapes main. -/
theorem C7_errors_propagate_unhandled_witness :
    (set_status_availableE
        (envFrom (failOnly (Effect.typewrite "Teams") "boom")) =
      Except.error "boom") ∧
    (check_q_pressE (envFrom (failAnyPrint "boom")) "KeyboardEvent" initState =
      Except.error "boom") ∧
    (mainE (envFrom (failOnly (Effect.press "enter") "boom"))
        (fun _ => "12:00") exampleSched 2 =
      Except.error "boom") :=
  ⟨C7_errors_propagate_unhandled.1 String "boom" (Effect.typewrite "Teams")
      (by simp [set_status_available]),
   C7_errors_propagate_unhandled.2.1 String "boom" "KeyboardEvent" initState,
   C7_errors_propagate_unhandled.2.2.2 String "boom" (Effect.press "enter")
      (by simp [mainRunCalls])⟩

end Wakeup
